import Mathlib

/-!
Verification of the RAG question-answering core and the per-user
conversation-memory subsystem of the granola-lite notes application.

The Python sources are shallowly embedded:
* `backend/memory/manager.py` (`ConversationManager`) as pure state-passing
  functions over `UserMemory`;
* `backend/rag_service.py` (`RAGService`) as pure functions parameterised by
  the outcomes of the external embedding / generation capabilities and by the
  row list returned by the pgvector similarity query, whose admissible values
  are characterised by the relation `sqlSearchValid`.

Machine floats coming back from the vector store are modelled as rationals;
the pgvector distance operator is an opaque parameter `dist` (it lives in the
database extension, outside the repository), which is sound because every
claim treated here is independent of the concrete metric.
-/

namespace Granola

/-- LangChain `BaseMessage`: the two message classes the repository
constructs, `HumanMessage` and `AIMessage`, each carrying a `content`
string. -/
inductive BaseMessage where
  | human (content : String)
  | ai (content : String)
deriving DecidableEq, Repr

/-- The `content` attribute of a LangChain message. -/
def BaseMessage.content : BaseMessage → String
  | .human c => c
  | .ai c => c

/-- One entry of `user_memory["conversations"]` as built by
`ConversationManager.add_message`: the dict
`{"id": conversation_id, "timestamp": ..., "message": message,
"is_user": is_user}`. Timestamps are modelled as abstract `Nat` ticks. -/
structure ConversationTurn where
  id : String
  timestamp : Nat
  message : String
  is_user : Bool
deriving DecidableEq, Repr

/-- The per-user slice of `ConversationManager.user_memories` that the
verified operations touch: the recent-context buffer
(`buffer_memory.chat_memory.messages`) and the full log
(`"conversations"`). The summary memory and the context map are not
needed by any claim. -/
structure UserMemory where
  buffer_messages : List BaseMessage
  conversations : List ConversationTurn
deriving DecidableEq, Repr

/-- The fresh state `get_user_memory` lazily creates for an unseen user:
empty buffer, empty conversation log. -/
def emptyUserMemory : UserMemory := { buffer_messages := [], conversations := [] }

/-- Python list slicing `l[i:]` for an `Int` index `i`: a nonnegative index
drops `i` elements from the front; a negative index keeps the last `-i`
elements (clamped to the whole list when `-i` exceeds the length). -/
def pySliceFrom {α : Type} (l : List α) (i : Int) : List α :=
  if 0 ≤ i then l.drop i.toNat else l.drop ((l.length + i).toNat)

/-- The last `n` elements of a list (all of it when `n ≥ length`). -/
def takeLast {α : Type} (l : List α) (n : Nat) : List α :=
  l.drop (l.length - n)

/-- LangChain `BaseChatMemory.save_context(inputs, outputs)` on a
`ConversationBufferWindowMemory`: appends `HumanMessage(input)` then
`AIMessage(output)` to `chat_memory.messages`. The window size `k`
restricts only the `buffer` view used by `load_memory_variables`;
`chat_memory.messages` itself grows without bound. -/
def save_context (buf : List BaseMessage) (inp out : String) : List BaseMessage :=
  buf ++ [BaseMessage.human inp, BaseMessage.ai out]

/-- `ConversationManager.add_message(user_id, message, is_user,
conversation_id)` restricted to one user's memory: push the
`(input, output)` pair into the buffer memory (the side not matching
`is_user` is the empty string), append the turn dict to
`"conversations"`, and keep only the last 100 log entries. -/
def add_message (um : UserMemory) (message : String) (is_user : Bool)
    (conversation_id : String) (now : Nat) : UserMemory :=
  let buf := save_context um.buffer_messages
    (if is_user then message else "") (if is_user then "" else message)
  let convs := um.conversations ++
    [{ id := conversation_id, timestamp := now, message := message, is_user := is_user }]
  let convs := if convs.length > 100 then takeLast convs 100 else convs
  { buffer_messages := buf, conversations := convs }

/-- `ConversationManager.get_recent_context(user_id)`: returns
`buffer_memory.chat_memory.messages` — the full accumulated message list
of the buffer memory, not the `k`-window view. -/
def get_recent_context (um : UserMemory) : List BaseMessage :=
  um.buffer_messages

/-- `ConversationManager.get_conversation_history(user_id, conversation_id,
limit)`: filter the full log by conversation id, then take the Python
slice `[-limit:]`. -/
def get_conversation_history (um : UserMemory) (conversation_id : String)
    (limit : Int) : List ConversationTurn :=
  pySliceFrom (um.conversations.filter (fun c => c.id = conversation_id)) (-limit)

/-- One `add_message` request: message text, `is_user` flag, conversation
id and arrival tick. -/
structure RecordReq where
  message : String
  is_user : Bool
  conversation_id : String
  now : Nat
deriving DecidableEq, Repr

/-- Replay a sequence of `add_message` calls against a user's memory. -/
def recordSeq (um : UserMemory) (reqs : List RecordReq) : UserMemory :=
  reqs.foldl (fun m r => add_message m r.message r.is_user r.conversation_id r.now) um

/-- The turn dict a single request appends to the full log. -/
def RecordReq.turn (r : RecordReq) : ConversationTurn :=
  { id := r.conversation_id, timestamp := r.now, message := r.message, is_user := r.is_user }

/-! ## Database rows (`backend/database.py`) -/

/-- A row of the `notes` table. Timestamps are abstract `Nat` ticks. -/
structure NoteRow where
  id : Int
  title : String
  content : String
  created_at : Nat
  updated_at : Nat
deriving DecidableEq, Repr

/-- A row of the `note_embeddings` table (`NoteEmbedding`). Vector
components are modelled as rationals. -/
structure NoteEmbeddingRow where
  id : Int
  note_id : Int
  embedding : List ℚ
  created_at : Nat
deriving DecidableEq, Repr

/-- The two tables the RAG core reads. -/
structure DB where
  notes : List NoteRow
  note_embeddings : List NoteEmbeddingRow
deriving DecidableEq, Repr

/-- One dict of the list `_get_relevant_notes` returns: note columns plus
`similarity = 1 - (embedding <=> query_vector)`. -/
structure RetrievedNote where
  id : Int
  title : String
  content : String
  similarity : ℚ
  created_at : Nat
  updated_at : Nat
deriving DecidableEq, Repr

/-- The multiset (as a list) of rows produced by the SQL join
`notes n JOIN note_embeddings ne ON n.id = ne.note_id`, each projected the
way `_get_relevant_notes` builds its result dicts. `dist` stands for the
pgvector operator `<=>`, a parameter because it is evaluated inside the
database extension, outside this repository. -/
def joinRows (db : DB) (dist : List ℚ → List ℚ → ℚ) (qvec : List ℚ) :
    List RetrievedNote :=
  db.notes.flatMap fun n =>
    (db.note_embeddings.filter (fun ne => ne.note_id = n.id)).map fun ne =>
      { id := n.id, title := n.title, content := n.content,
        similarity := 1 - dist ne.embedding qvec,
        created_at := n.created_at, updated_at := n.updated_at }

/-- Rows in weakly descending similarity order — equivalently weakly
ascending `<=>` distance, the sort key of the SQL `ORDER BY`. -/
def simDesc (a b : RetrievedNote) : Prop := b.similarity ≤ a.similarity

/-- Which result lists the query
`SELECT ... ORDER BY ne.embedding <=> qvec LIMIT top_k` may return:
some ordering `p` of the join rows that is sorted by the distance key
(PostgreSQL guarantees nothing about the relative order of rows with equal
keys), cut off after `top_k` rows. -/
def sqlSearchValid (db : DB) (dist : List ℚ → List ℚ → ℚ) (qvec : List ℚ)
    (top_k : Nat) (rs : List RetrievedNote) : Prop :=
  ∃ p : List RetrievedNote, List.Perm p (joinRows db dist qvec) ∧
    List.Pairwise simDesc p ∧ rs = List.take top_k p

/-! ## Vector-index maintenance (`RAGService.add_note` / `update_note` /
`remove_note`)

The functions below give the *committed* state of `note_embeddings` after
each request. `RAGService.add_note` inserts and commits only when the
embedding call returned a vector. In `RAGService.update_note` the
`delete()` of the old rows runs in the request's SQLAlchemy session; when
the subsequent embedding call fails nothing is ever committed and `get_db`
closes (hence rolls back) the session at the end of the request, so the
committed table is unchanged. When embedding succeeds, `add_note`'s single
`commit()` makes the delete and the insert durable together. -/

/-- The text `RAGService.add_note` embeds: `f"{note.title} {note.content}"`. -/
def noteText (n : NoteRow) : String := n.title ++ " " ++ n.content

/-- `RAGService.add_note(note, db)`: embed the note text; on success insert
one `NoteEmbedding` row and commit, on failure (no vector) do nothing. -/
def add_note (embedFn : String → Option (List ℚ)) (rows : List NoteEmbeddingRow)
    (note : NoteRow) (rowId : Int) (now : Nat) : List NoteEmbeddingRow :=
  match embedFn (noteText note) with
  | some v => rows ++ [{ id := rowId, note_id := note.id, embedding := v, created_at := now }]
  | none => rows

/-- `RAGService.update_note(note, db)`: delete all embedding rows of the
note, then `add_note`. Committed effect: on embedding success the old rows
are replaced by one fresh row; on failure the uncommitted delete is rolled
back when the session closes, leaving the table unchanged. -/
def update_note (embedFn : String → Option (List ℚ)) (rows : List NoteEmbeddingRow)
    (note : NoteRow) (rowId : Int) (now : Nat) : List NoteEmbeddingRow :=
  match embedFn (noteText note) with
  | some v => (rows.filter fun r => ¬ r.note_id = note.id) ++
      [{ id := rowId, note_id := note.id, embedding := v, created_at := now }]
  | none => rows

/-- `RAGService.remove_note(note_id, db)`: delete all embedding rows of the
note and commit. -/
def remove_note (rows : List NoteEmbeddingRow) (note_id : Int) :
    List NoteEmbeddingRow :=
  rows.filter fun r => ¬ r.note_id = note_id

/-- The embedding rows currently stored for a note id. -/
def vecRowsFor (rows : List NoteEmbeddingRow) (note_id : Int) :
    List NoteEmbeddingRow :=
  rows.filter fun r => r.note_id = note_id

/-! ## The ask-question pipeline (`RAGService.ask_question`) -/

/-- Round a rational to the nearest integer, ties to the even integer —
the rounding Python's fixed-point float formatting applies. -/
def roundHalfEven (q : ℚ) : Int :=
  let f := ⌊q⌋
  let frac := q - f
  if frac < 1/2 then f
  else if 1/2 < frac then f + 1
  else if f % 2 = 0 then f else f + 1

/-- Python's `f"{x:.2f}"` on the modelled value: round to hundredths
(half-to-even) and print with exactly two decimal digits. -/
def fmt2 (q : ℚ) : String :=
  let c := roundHalfEven (q * 100)
  let sign := if c < 0 then "-" else ""
  let a := c.natAbs
  sign ++ toString (a / 100) ++ "." ++ (if a % 100 < 10 then "0" else "") ++ toString (a % 100)

/-- One line of the `sources` list:
`f"Note {id}: {title} (similarity: {similarity:.2f})"`. -/
def formatSource (n : RetrievedNote) : String :=
  "Note " ++ toString n.id ++ ": " ++ n.title ++ " (similarity: " ++ fmt2 n.similarity ++ ")"

/-- One context block: `f"Note '{title}': {content}"`. -/
def contextPart (n : RetrievedNote) : String :=
  "Note '" ++ n.title ++ "': " ++ n.content

/-- A chat message handed to the generation capability. -/
structure ChatMessage where
  role : String
  content : String
deriving DecidableEq, Repr

/-- The fixed system instruction of `ask_question`. -/
def systemPrompt : String :=
  "You are a helpful assistant that answers questions based on provided notes. Be concise and accurate."

/-- Role inference in `ask_question`:
`"user" if msg.__class__.__name__ == "HumanMessage" else "assistant"`. -/
def messageRole : BaseMessage → String
  | .human _ => "user"
  | .ai _ => "assistant"

/-- The final user message of the prompt, question plus note context. -/
def ragUserMessage (question context : String) : String :=
  "Based on the following notes, please answer the question: '" ++ question ++
  "'\n\nNotes:\n" ++ context ++
  "\n\nPlease provide a helpful answer based on the information in the notes. If the answer cannot be found in the notes, please say so clearly."

/-- The message list `ask_question` assembles: the system instruction, the
last 4 entries of the recent context (every `BaseMessage` has a `content`
attribute, so the `hasattr` guard never filters), then the final user
message. -/
def promptMessages (question context : String) (recent : List BaseMessage) :
    List ChatMessage :=
  { role := "system", content := systemPrompt } ::
  (pySliceFrom recent (-4)).map (fun m => { role := messageRole m, content := m.content }) ++
  [{ role := "user", content := ragUserMessage question context }]

/-- `models.AskResponse`. -/
structure AskResponse where
  answer : String
  sources : List String
deriving DecidableEq, Repr

/-- Outcome of the `generate_response` call as observed by `ask_question`:
either the `Optional[str]` it returned (`none` when it swallowed an
internal error), or an exception propagated out of the awaited call. -/
inductive GenOutcome where
  | result (r : Option String)
  | thrown (e : String)
deriving DecidableEq, Repr

/-- Everything observable about one `ask_question` request: the response,
the user's memory afterwards, how many embedding and generation calls were
made, and the prompt handed to generation (when it was invoked). -/
structure AskEffects where
  response : AskResponse
  memory_after : UserMemory
  embed_calls : Nat
  gen_calls : Nat
  gen_prompt : Option (List ChatMessage)
deriving DecidableEq, Repr

/-- The canned answer returned when `_get_relevant_notes` comes back empty. -/
def noNotesAnswer : String :=
  "I don't have any notes to search through. Please add some notes first."

/-- The degraded answer when generation returns `None` or empty text. -/
def genErrorAnswer : String :=
  "Sorry, I encountered an error while processing your question."

/-- The degraded answer when the generation call raises `e`. -/
def genExceptionAnswer (e : String) : String :=
  "Sorry, I encountered an error while processing your question: " ++ e

/-- `RAGService.ask_question(question, db, user_id)` for one user.
`embOutcome` is what `get_embedding` returned for the question (the call
is always made, first thing inside `_get_relevant_notes`); `sqlRows` is
the row list the pgvector query returned (constrained by `sqlSearchValid`
when a concrete database is given; it is only consulted when an embedding
was obtained); `genOutcome` is the generation capability's behaviour. -/
def ask_question (question : String) (embOutcome : Option (List ℚ))
    (sqlRows : List RetrievedNote) (um : UserMemory) (genOutcome : GenOutcome)
    (now : Nat) : AskEffects :=
  let relevant_notes := match embOutcome with
    | none => []
    | some _ => sqlRows
  if relevant_notes.isEmpty then
    { response := { answer := noNotesAnswer, sources := [] },
      memory_after := um, embed_calls := 1, gen_calls := 0, gen_prompt := none }
  else
    let sources := relevant_notes.map formatSource
    let context := String.intercalate "\n\n" (relevant_notes.map contextPart)
    let messages := promptMessages question context (get_recent_context um)
    match genOutcome with
    | .thrown e =>
        { response := { answer := genExceptionAnswer e, sources := [] },
          memory_after := um, embed_calls := 1, gen_calls := 1, gen_prompt := some messages }
    | .result none =>
        { response := { answer := genErrorAnswer, sources := [] },
          memory_after := um, embed_calls := 1, gen_calls := 1, gen_prompt := some messages }
    | .result (some answer) =>
        if answer = "" then
          { response := { answer := genErrorAnswer, sources := [] },
            memory_after := um, embed_calls := 1, gen_calls := 1, gen_prompt := some messages }
        else
          let um1 := add_message um question true "default" now
          let um2 := add_message um1 answer false "default" (now + 1)
          { response := { answer := answer, sources := sources },
            memory_after := um2, embed_calls := 1, gen_calls := 1, gen_prompt := some messages }

/-! ## Helper lemmas about `takeLast` -/

theorem takeLast_length {α : Type} (l : List α) (n : Nat) :
    (takeLast l n).length = min l.length n := by
  simp only [takeLast, List.length_drop]
  omega

theorem takeLast_of_length_le {α : Type} {l : List α} {n : Nat}
    (h : l.length ≤ n) : takeLast l n = l := by
  simp [takeLast, Nat.sub_eq_zero_of_le h]

theorem takeLast_takeLast_append {α : Type} (l m : List α) (n : Nat) :
    takeLast (takeLast l n ++ m) n = takeLast (l ++ m) n := by
  simp only [takeLast, List.length_append, List.length_drop,
    List.drop_append_eq_append_drop, List.drop_drop]
  congr 2 <;> omega

/-- The full log after one `add_message` is always the last 100 entries of
the previous log with the new turn appended. -/
theorem add_message_conversations (um : UserMemory) (m : String) (iu : Bool)
    (cid : String) (now : Nat) :
    (add_message um m iu cid now).conversations =
      takeLast (um.conversations ++
        [{ id := cid, timestamp := now, message := m, is_user := iu }]) 100 := by
  simp only [add_message]
  split
  · rfl
  · rename_i h
    exact (takeLast_of_length_le (by simp at h ⊢; omega)).symm

/-- Replaying requests keeps the log equal to the last 100 of the full
insertion sequence. -/
theorem recordSeq_conversations (reqs : List RecordReq) (um : UserMemory)
    (h : um.conversations.length ≤ 100) :
    (recordSeq um reqs).conversations =
      takeLast (um.conversations ++ reqs.map RecordReq.turn) 100 := by
  induction reqs generalizing um with
  | nil => simp [recordSeq, takeLast_of_length_le h]
  | cons r rs ih =>
    have hstep := add_message_conversations um r.message r.is_user r.conversation_id r.now
    have hlen : (add_message um r.message r.is_user r.conversation_id r.now).conversations.length ≤ 100 := by
      rw [hstep, takeLast_length]; omega
    calc (recordSeq um (r :: rs)).conversations
        = (recordSeq (add_message um r.message r.is_user r.conversation_id r.now) rs).conversations := by
          simp [recordSeq]
      _ = takeLast ((add_message um r.message r.is_user r.conversation_id r.now).conversations
            ++ rs.map RecordReq.turn) 100 := ih _ hlen
      _ = takeLast (takeLast (um.conversations ++ [r.turn]) 100 ++ rs.map RecordReq.turn) 100 := by
          rw [hstep]; rfl
      _ = takeLast ((um.conversations ++ [r.turn]) ++ rs.map RecordReq.turn) 100 :=
          takeLast_takeLast_append _ _ _
      _ = takeLast (um.conversations ++ (r :: rs).map RecordReq.turn) 100 := by
          simp [RecordReq.turn]

/-! ## Claim theorems about the memory manager -/

/-- C6: for every sequence of recorded turns, the full conversation log is
exactly the last 100 turns of the insertion sequence — so it never exceeds
the retention cap of 100, once more than 100 turns have been recorded
exactly the last 100 remain, and eviction is strictly FIFO by insertion
order (oldest discarded first). -/
theorem conversation_log_fifo_cap (reqs : List RecordReq) :
    (recordSeq emptyUserMemory reqs).conversations =
      takeLast (reqs.map RecordReq.turn) 100 ∧
    (recordSeq emptyUserMemory reqs).conversations.length = min reqs.length 100 := by
  have h := recordSeq_conversations reqs emptyUserMemory (by simp [emptyUserMemory])
  rw [show emptyUserMemory.conversations = [] from rfl, List.nil_append] at h
  refine ⟨h, ?_⟩
  rw [h, takeLast_length, List.length_map]

/-- C5: the recency window is NOT capped at its configured capacity W = 10:
after recording W + 5 = 15 turns, `get_recent_context` returns 30 entries
(two buffer messages per recorded turn, never evicted), not 10 — the
window size `k = 10` of `ConversationBufferWindowMemory` is never applied
to `chat_memory.messages`, the list `get_recent_context` reads. -/
theorem recent_context_unbounded_after_15_turns :
    (get_recent_context (recordSeq emptyUserMemory
      ((List.range 15).map fun i =>
        { message := "m", is_user := true, conversation_id := "default", now := i }))).length
      = 30 := by
  rfl

/-- C9 counterexample: with one recorded turn and `limit = 0`,
`get_conversation_history` returns that turn (Python's `[-0:]` slice is
the whole list), so its length is not at most `limit`. -/
theorem history_limit_zero_returns_all :
    ¬ ((get_conversation_history
        (add_message emptyUserMemory "hello" true "default" 0) "default" 0).length ≤ 0) := by
  decide

/-- C9 amended: for every positive `limit`, `history` returns exactly the
last `limit` entries (at most) of the full log filtered by the requested
conversation id, in log (chronological) order. -/
theorem history_filters_and_limits (um : UserMemory) (cid : String) (limit : Int)
    (h : 1 ≤ limit) :
    get_conversation_history um cid limit =
      takeLast (um.conversations.filter fun c => c.id = cid) limit.toNat ∧
    (get_conversation_history um cid limit).length ≤ limit.toNat := by
  have key : get_conversation_history um cid limit =
      takeLast (um.conversations.filter fun c => c.id = cid) limit.toNat := by
    simp only [get_conversation_history, pySliceFrom, takeLast]
    rw [if_neg (by omega)]
    congr 1
    omega
  refine ⟨key, ?_⟩
  rw [key, takeLast_length]
  omega

/-- Witness for C9's amended theorem at `limit = 2` on a one-turn log. -/
theorem history_filters_and_limits_witness :
    (1 : Int) ≤ 2 ∧
    (get_conversation_history (add_message emptyUserMemory "hi" true "default" 0) "default" 2 =
      takeLast ((add_message emptyUserMemory "hi" true "default" 0).conversations.filter
        fun c => c.id = "default") (2 : Int).toNat ∧
     (get_conversation_history (add_message emptyUserMemory "hi" true "default" 0) "default" 2).length
        ≤ (2 : Int).toNat) :=
  ⟨by decide, history_filters_and_limits _ "default" 2 (by decide)⟩

/-- C10: every `add_message` call appends to the recency buffer one
`HumanMessage` / `AIMessage` pair in which the side not matching `is_user`
has empty content; consequently the last-4 slice used in prompt assembly
can contain empty-content messages — concretely, after one user turn the
assembled prompt contains an assistant message with empty content. -/
theorem add_message_buffer_pair (um : UserMemory) (m : String) (iu : Bool)
    (cid : String) (now : Nat) :
    get_recent_context (add_message um m iu cid now) =
      get_recent_context um ++
        [BaseMessage.human (if iu then m else ""), BaseMessage.ai (if iu then "" else m)] ∧
    ({ role := "assistant", content := "" } : ChatMessage) ∈
      promptMessages "q" "ctx"
        (get_recent_context (add_message emptyUserMemory "hi" true "default" 0)) := by
  constructor
  · simp [get_recent_context, add_message, save_context]
  · decide

/-! ## Helper lemmas about the similarity query -/

theorem joinRows_of_no_embeddings (db : DB) (dist : List ℚ → List ℚ → ℚ)
    (qvec : List ℚ) (h : db.note_embeddings = []) :
    joinRows db dist qvec = [] := by
  simp [joinRows, h]

theorem sqlSearchValid_of_no_embeddings {db : DB} {dist : List ℚ → List ℚ → ℚ}
    {qvec : List ℚ} {k : Nat} {rs : List RetrievedNote}
    (h : db.note_embeddings = []) (hv : sqlSearchValid db dist qvec k rs) :
    rs = [] := by
  obtain ⟨p, hperm, -, rfl⟩ := hv
  rw [joinRows_of_no_embeddings db dist qvec h] at hperm
  rw [hperm.eq_nil]
  simp

/-! ## Claim theorems about the RAG pipeline -/

/-- C1 counterexample: with an empty vector store (no `note_embeddings`
rows, so the only valid query result is the empty list) the embedding call
is NOT skipped — `ask_question` still makes it (`embed_calls = 1`), because
`_get_relevant_notes` embeds the question before consulting the store. -/
theorem ask_empty_store_embedding_still_called :
    sqlSearchValid { notes := [], note_embeddings := [] } (fun _ _ => 0) [1] 3 [] ∧
    ¬ ((ask_question "q" (some [1]) [] emptyUserMemory
        (GenOutcome.result (some "a")) 0).embed_calls = 0) :=
  ⟨⟨[], by simp [joinRows], List.Pairwise.nil, rfl⟩, by decide⟩

/-- C1 amended: if the vector store contains no note vectors, `ask_question`
returns the canned no-notes answer with an empty sources list, makes no
generation call and writes no memory — but the embedding call is still
performed (the emptiness is only discovered through the empty retrieval
result, after embedding). -/
theorem ask_empty_store_short_circuits_generation
    (db : DB) (dist : List ℚ → List ℚ → ℚ) (qvec : List ℚ) (k : Nat)
    (rs : List RetrievedNote) (q : String) (emb : Option (List ℚ))
    (um : UserMemory) (go : GenOutcome) (now : Nat)
    (hdb : db.note_embeddings = [])
    (hrs : sqlSearchValid db dist qvec k rs) :
    (ask_question q emb rs um go now).response.answer = noNotesAnswer ∧
    (ask_question q emb rs um go now).response.sources = [] ∧
    (ask_question q emb rs um go now).gen_calls = 0 ∧
    (ask_question q emb rs um go now).memory_after = um ∧
    (ask_question q emb rs um go now).embed_calls = 1 := by
  have h0 : rs = [] := sqlSearchValid_of_no_embeddings hdb hrs
  subst h0
  cases emb <;> simp [ask_question]

/-- Witness for C1's amended theorem on a fully empty database. -/
theorem ask_empty_store_short_circuits_generation_witness :
    ({ notes := [], note_embeddings := [] } : DB).note_embeddings = [] ∧
    sqlSearchValid { notes := [], note_embeddings := [] } (fun _ _ => 0) [1] 3 [] ∧
    ((ask_question "q" (some [1]) [] emptyUserMemory (GenOutcome.result (some "a")) 0).response.answer
        = noNotesAnswer ∧
     (ask_question "q" (some [1]) [] emptyUserMemory (GenOutcome.result (some "a")) 0).response.sources
        = [] ∧
     (ask_question "q" (some [1]) [] emptyUserMemory (GenOutcome.result (some "a")) 0).gen_calls = 0 ∧
     (ask_question "q" (some [1]) [] emptyUserMemory (GenOutcome.result (some "a")) 0).memory_after
        = emptyUserMemory ∧
     (ask_question "q" (some [1]) [] emptyUserMemory (GenOutcome.result (some "a")) 0).embed_calls = 1) :=
  have hv : sqlSearchValid { notes := [], note_embeddings := [] } (fun _ _ => 0) [1] 3 [] :=
    ⟨[], by simp [joinRows], List.Pairwise.nil, rfl⟩
  ⟨rfl, hv,
    ask_empty_store_short_circuits_generation _ _ _ _ _ _ _ _ _ _ rfl hv⟩

/-- C2: if embedding the question fails (`get_embedding` returned no
vector), `ask_question` returns a user-visible canned answer with no
sources, leaves the user's memory untouched and never invokes the
generation capability. -/
theorem ask_embedding_failure_degrades (q : String) (rows : List RetrievedNote)
    (um : UserMemory) (go : GenOutcome) (now : Nat) :
    (ask_question q none rows um go now).response.answer = noNotesAnswer ∧
    (ask_question q none rows um go now).response.sources = [] ∧
    (ask_question q none rows um go now).memory_after = um ∧
    (ask_question q none rows um go now).gen_calls = 0 ∧
    (ask_question q none rows um go now).gen_prompt = none := by
  simp [ask_question]

/-- The generation call failed: it raised, returned `None`, or returned
empty text (Python falsiness of the answer). -/
def genFailed : GenOutcome → Prop
  | .thrown _ => True
  | .result none => True
  | .result (some s) => s = ""

/-- C3: when the generation call raises or returns no text, `ask_question`
returns a degraded-service answer with no sources and the user's
conversation memory (recency buffer and full log) is exactly as before —
no turn of the failed exchange is recorded. -/
theorem ask_generation_failure_no_memory_write (q : String) (v : List ℚ)
    (rows : List RetrievedNote) (um : UserMemory) (go : GenOutcome) (now : Nat)
    (hrows : rows ≠ []) (hfail : genFailed go) :
    (ask_question q (some v) rows um go now).memory_after = um ∧
    (ask_question q (some v) rows um go now).response.sources = [] ∧
    ((ask_question q (some v) rows um go now).response.answer = genErrorAnswer ∨
      ∃ e, (ask_question q (some v) rows um go now).response.answer = genExceptionAnswer e) := by
  have hne : rows.isEmpty = false := List.isEmpty_eq_false.mpr hrows
  cases go with
  | thrown e =>
    refine ⟨?_, ?_, Or.inr ⟨e, ?_⟩⟩ <;> simp [ask_question, hne]
  | result r =>
    cases r with
    | none => refine ⟨?_, ?_, Or.inl ?_⟩ <;> simp [ask_question, hne]
    | some s =>
      have hs : s = "" := hfail
      subst hs
      refine ⟨?_, ?_, Or.inl ?_⟩ <;> simp [ask_question, hne]

/-- Witness for C3 with one retrieved note and a generation call that
returned `None`. -/
theorem ask_generation_failure_no_memory_write_witness :
    (([{ id := 1, title := "t", content := "c", similarity := 1, created_at := 0, updated_at := 0 }] : List RetrievedNote) ≠ [] ∧
      genFailed (GenOutcome.result none)) ∧
    ((ask_question "q" (some [1])
        [{ id := 1, title := "t", content := "c", similarity := 1, created_at := 0, updated_at := 0 }] emptyUserMemory
        (GenOutcome.result none) 0).memory_after = emptyUserMemory ∧
     (ask_question "q" (some [1])
        [{ id := 1, title := "t", content := "c", similarity := 1, created_at := 0, updated_at := 0 }] emptyUserMemory
        (GenOutcome.result none) 0).response.sources = [] ∧
     ((ask_question "q" (some [1])
        [{ id := 1, title := "t", content := "c", similarity := 1, created_at := 0, updated_at := 0 }] emptyUserMemory
        (GenOutcome.result none) 0).response.answer = genErrorAnswer ∨
      ∃ e, (ask_question "q" (some [1])
        [{ id := 1, title := "t", content := "c", similarity := 1, created_at := 0, updated_at := 0 }] emptyUserMemory
        (GenOutcome.result none) 0).response.answer = genExceptionAnswer e)) :=
  ⟨⟨List.cons_ne_nil _ _, True.intro⟩,
    ask_generation_failure_no_memory_write _ _ _ _ _ _ (List.cons_ne_nil _ _) True.intro⟩

/-- C4: when generation succeeds with non-empty text, `ask_question`
records exactly two turns — the question as a user turn, then the answer
as an assistant turn — and returns the answer together with one sources
line per retrieved note (`Note <id>: <title> (similarity: <score to 2
decimals>)`, via `formatSource`) in retrieval order. -/
theorem ask_success_records_two_turns_and_sources (q : String) (v : List ℚ)
    (rows : List RetrievedNote) (um : UserMemory) (ans : String) (now : Nat)
    (hrows : rows ≠ []) (hans : ans ≠ "") :
    (ask_question q (some v) rows um (GenOutcome.result (some ans)) now).response.answer = ans ∧
    (ask_question q (some v) rows um (GenOutcome.result (some ans)) now).response.sources =
      rows.map formatSource ∧
    (ask_question q (some v) rows um (GenOutcome.result (some ans)) now).memory_after =
      add_message (add_message um q true "default" now) ans false "default" (now + 1) ∧
    get_recent_context
        (ask_question q (some v) rows um (GenOutcome.result (some ans)) now).memory_after =
      get_recent_context um ++
        [BaseMessage.human q, BaseMessage.ai "", BaseMessage.human "", BaseMessage.ai ans] := by
  have hne : rows.isEmpty = false := List.isEmpty_eq_false.mpr hrows
  refine ⟨?_, ?_, ?_, ?_⟩ <;>
    simp [ask_question, hne, hans, add_message, save_context, get_recent_context]

/-- Witness for C4 with one retrieved note and the answer `"a"`. -/
theorem ask_success_records_two_turns_and_sources_witness :
    (([{ id := 1, title := "t", content := "c", similarity := 1, created_at := 0, updated_at := 0 }] : List RetrievedNote) ≠ [] ∧
      ("a" : String) ≠ "") ∧
    ((ask_question "q" (some [1])
        [{ id := 1, title := "t", content := "c", similarity := 1, created_at := 0, updated_at := 0 }] emptyUserMemory
        (GenOutcome.result (some "a")) 0).response.answer = "a" ∧
     (ask_question "q" (some [1])
        [{ id := 1, title := "t", content := "c", similarity := 1, created_at := 0, updated_at := 0 }] emptyUserMemory
        (GenOutcome.result (some "a")) 0).response.sources =
      ([{ id := 1, title := "t", content := "c", similarity := 1, created_at := 0, updated_at := 0 }] : List RetrievedNote).map formatSource ∧
     (ask_question "q" (some [1])
        [{ id := 1, title := "t", content := "c", similarity := 1, created_at := 0, updated_at := 0 }] emptyUserMemory
        (GenOutcome.result (some "a")) 0).memory_after =
      add_message (add_message emptyUserMemory "q" true "default" 0) "a" false "default" (0 + 1) ∧
     get_recent_context
        (ask_question "q" (some [1])
          [{ id := 1, title := "t", content := "c", similarity := 1, created_at := 0, updated_at := 0 }] emptyUserMemory
          (GenOutcome.result (some "a")) 0).memory_after =
      get_recent_context emptyUserMemory ++
        [BaseMessage.human "q", BaseMessage.ai "", BaseMessage.human "", BaseMessage.ai "a"]) :=
  ⟨⟨List.cons_ne_nil _ _, by decide⟩,
    ask_success_records_two_turns_and_sources _ _ _ _ _ _ (List.cons_ne_nil _ _) (by decide)⟩

/-! ## Claim theorems about vector-index maintenance -/

/-- C7 counterexample: when the embedding call fails, creating a note
inserts no vector at all — the note ends up with zero vector rows, not
exactly one. -/
theorem add_note_embed_failure_no_vector :
    ¬ ((vecRowsFor (add_note (fun _ => none) []
        { id := 1, title := "t", content := "c", created_at := 0, updated_at := 0 } 1 0)
        1).length = 1) := by
  decide

/-- C7 amended: provided the embedding call on the note's text succeeds,
creation inserts exactly one vector for a note with none, update replaces
all old vector rows of the note id by exactly one fresh vector computed
from the new content, and deletion removes all vector rows of the note id
— so a live note whose last create/update embedding succeeded has exactly
one current vector, never both old and new. -/
theorem vector_index_one_current_vector (embedFn : String → Option (List ℚ))
    (rows : List NoteEmbeddingRow) (note : NoteRow) (rowId : Int) (now : Nat)
    (v : List ℚ) (hemb : embedFn (noteText note) = some v) :
    (vecRowsFor rows note.id = [] →
      vecRowsFor (add_note embedFn rows note rowId now) note.id =
        [{ id := rowId, note_id := note.id, embedding := v, created_at := now }]) ∧
    vecRowsFor (update_note embedFn rows note rowId now) note.id =
      [{ id := rowId, note_id := note.id, embedding := v, created_at := now }] ∧
    vecRowsFor (remove_note rows note.id) note.id = [] := by
  have hdrop : vecRowsFor (rows.filter fun r => ¬ r.note_id = note.id) note.id = [] := by
    simp only [vecRowsFor, List.filter_filter]
    rw [List.filter_eq_nil_iff]
    intro a ha
    by_cases h : a.note_id = note.id <;> simp [h]
  refine ⟨?_, ?_, ?_⟩
  · intro h0
    simp [add_note, hemb, vecRowsFor, List.filter_append] at h0 ⊢
    exact h0
  · simp only [update_note, hemb, vecRowsFor, List.filter_append] at hdrop ⊢
    simp [hdrop]
  · exact hdrop

/-- Witness for C7's amended theorem: an embedding capability that always
returns the vector `[1]`, applied to an empty store. -/
theorem vector_index_one_current_vector_witness :
    (fun _ => some [1] : String → Option (List ℚ))
        (noteText { id := 1, title := "t", content := "c", created_at := 0, updated_at := 0 })
      = some [1] ∧
    ((vecRowsFor ([] : List NoteEmbeddingRow)
        ({ id := 1, title := "t", content := "c", created_at := 0, updated_at := 0 } : NoteRow).id
        = [] →
      vecRowsFor (add_note (fun _ => some [1]) []
          { id := 1, title := "t", content := "c", created_at := 0, updated_at := 0 } 7 3)
          ({ id := 1, title := "t", content := "c", created_at := 0, updated_at := 0 } : NoteRow).id =
        [{ id := 7, note_id := 1, embedding := [1], created_at := 3 }]) ∧
     vecRowsFor (update_note (fun _ => some [1]) []
        { id := 1, title := "t", content := "c", created_at := 0, updated_at := 0 } 7 3)
        ({ id := 1, title := "t", content := "c", created_at := 0, updated_at := 0 } : NoteRow).id =
      [{ id := 7, note_id := 1, embedding := [1], created_at := 3 }] ∧
     vecRowsFor (remove_note []
        ({ id := 1, title := "t", content := "c", created_at := 0, updated_at := 0 } : NoteRow).id)
        ({ id := 1, title := "t", content := "c", created_at := 0, updated_at := 0 } : NoteRow).id
      = []) :=
  ⟨rfl, vector_index_one_current_vector _ _ _ _ _ _ rfl⟩

/-! ## Claim theorems about the similarity search contract -/

/-- C8 counterexample: the SQL query breaks ties by nothing — with two
notes at equal distance, the result listing note 2 before note 1 is a
valid outcome of the query, and it is not ordered by (similarity
descending, then note id ascending). -/
theorem search_no_id_tiebreak :
    sqlSearchValid
      { notes :=
          [{ id := 1, title := "a", content := "x", created_at := 0, updated_at := 0 },
           { id := 2, title := "b", content := "y", created_at := 0, updated_at := 0 }],
        note_embeddings :=
          [{ id := 10, note_id := 1, embedding := [1], created_at := 0 },
           { id := 11, note_id := 2, embedding := [1], created_at := 0 }] }
      (fun _ _ => 0) [1] 2
      [{ id := 2, title := "b", content := "y", similarity := 1, created_at := 0, updated_at := 0 },
       { id := 1, title := "a", content := "x", similarity := 1, created_at := 0, updated_at := 0 }] ∧
    ¬ List.Pairwise
        (fun a b : RetrievedNote => b.similarity < a.similarity ∨
          (b.similarity = a.similarity ∧ a.id < b.id))
        [{ id := 2, title := "b", content := "y", similarity := 1, created_at := 0, updated_at := 0 },
         { id := 1, title := "a", content := "x", similarity := 1, created_at := 0, updated_at := 0 }] := by
  constructor
  · have hj : joinRows
        { notes :=
            [{ id := 1, title := "a", content := "x", created_at := 0, updated_at := 0 },
             { id := 2, title := "b", content := "y", created_at := 0, updated_at := 0 }],
          note_embeddings :=
            [{ id := 10, note_id := 1, embedding := [1], created_at := 0 },
             { id := 11, note_id := 2, embedding := [1], created_at := 0 }] }
        (fun _ _ => 0) [1] =
        [{ id := 1, title := "a", content := "x", similarity := 1, created_at := 0, updated_at := 0 },
         { id := 2, title := "b", content := "y", similarity := 1, created_at := 0, updated_at := 0 }] := by
      norm_num [joinRows]
    refine ⟨[{ id := 2, title := "b", content := "y", similarity := 1, created_at := 0, updated_at := 0 },
             { id := 1, title := "a", content := "x", similarity := 1, created_at := 0, updated_at := 0 }],
            ?_, ?_, rfl⟩
    · rw [hj]
      exact List.Perm.swap _ _ _
    · simp [simDesc, List.pairwise_cons]
  · intro h
    rcases List.pairwise_cons.mp h with ⟨h1, -⟩
    rcases h1 _ (List.mem_singleton_self _) with h2 | ⟨-, h3⟩
    · exact absurd h2 (lt_irrefl _)
    · exact absurd h3 (by decide)

/-- C8 amended: every valid result of the similarity query has at most
`top_k` rows and is ordered by descending similarity (equivalently
ascending distance); the relative order of rows with equal similarity is
unspecified, with no note-id tie-break. -/
theorem search_bounded_and_sorted (db : DB) (dist : List ℚ → List ℚ → ℚ)
    (qvec : List ℚ) (k : Nat) (rs : List RetrievedNote)
    (h : sqlSearchValid db dist qvec k rs) :
    rs.length ≤ k ∧ List.Pairwise simDesc rs := by
  obtain ⟨p, hperm, hsort, rfl⟩ := h
  exact ⟨List.length_take_le _ _, hsort.sublist (List.take_sublist _ _)⟩

/-- Witness for C8's amended theorem on a one-note store. -/
theorem search_bounded_and_sorted_witness :
    sqlSearchValid
      { notes := [{ id := 1, title := "t", content := "c", created_at := 0, updated_at := 0 }],
        note_embeddings := [{ id := 10, note_id := 1, embedding := [1], created_at := 0 }] }
      (fun _ _ => 0) [1] 3
      [{ id := 1, title := "t", content := "c", similarity := 1, created_at := 0, updated_at := 0 }] ∧
    (([{ id := 1, title := "t", content := "c", similarity := 1, created_at := 0, updated_at := 0 }] :
        List RetrievedNote).length ≤ 3 ∧
      List.Pairwise simDesc
        [{ id := 1, title := "t", content := "c", similarity := 1, created_at := 0, updated_at := 0 }]) :=
  have hv : sqlSearchValid
      { notes := [{ id := 1, title := "t", content := "c", created_at := 0, updated_at := 0 }],
        note_embeddings := [{ id := 10, note_id := 1, embedding := [1], created_at := 0 }] }
      (fun _ _ => 0) [1] 3
      [{ id := 1, title := "t", content := "c", similarity := 1, created_at := 0, updated_at := 0 }] := by
    have hj : joinRows
        { notes := [{ id := 1, title := "t", content := "c", created_at := 0, updated_at := 0 }],
          note_embeddings := [{ id := 10, note_id := 1, embedding := [1], created_at := 0 }] }
        (fun _ _ => 0) [1] =
        [{ id := 1, title := "t", content := "c", similarity := 1, created_at := 0, updated_at := 0 }] := by
      norm_num [joinRows]
    exact ⟨[{ id := 1, title := "t", content := "c", similarity := 1, created_at := 0, updated_at := 0 }],
           by rw [hj], by simp [simDesc], rfl⟩
  ⟨hv, search_bounded_and_sorted _ _ _ _ _ hv⟩

end Granola
